import Mathlib

/-!
# GlideFrame: verification of the floating-window manager core

Shallow embedding of the glide-frame window/session state machine:
the provider-based detachable-content registry (`GlideFrameProvider` /
`DetachableRenderer`), the drag-momentum physics step, and the
`useGlideFrame` persistence adapter.  Numeric pixel quantities are
modelled as rationals (`ℚ`); JavaScript's `Math.sqrt(s) >= c`
comparisons on nonnegative speeds are embedded as the equivalent
squared comparisons `s >= c^2`.  A React `ReactNode` content reference
is modelled as an opaque `Nat` handle; reference equality is equality
of handles.
-/

/-- A point in viewport pixels ({x, y}). -/
structure Pos where
  x : ℚ
  y : ℚ
deriving DecidableEq

/-- A size in pixels ({width, height}). -/
structure Size where
  width : ℚ
  height : ℚ
deriving DecidableEq

/-- A DOMRect as reported for the inline slot. -/
structure Rect where
  x : ℚ
  y : ℚ
  width : ℚ
  height : ℚ
deriving DecidableEq

/-- Dock side ("left" | "right"); `Option DockSide` models `"left" | "right" | null`. -/
inductive DockSide where
  | left
  | right
deriving DecidableEq

/-- types.ts: MOMENTUM_FRICTION = 0.92. -/
def MOMENTUM_FRICTION : ℚ := 92 / 100

/-- types.ts: MOMENTUM_MIN_VELOCITY = 0.5. -/
def MOMENTUM_MIN_VELOCITY : ℚ := 1 / 2

/-- types.ts: MOMENTUM_MULTIPLIER = 8. -/
def MOMENTUM_MULTIPLIER : ℚ := 8

/-- types.ts: DOCK_MIN_VELOCITY = 2. -/
def DOCK_MIN_VELOCITY : ℚ := 2

/-- types.ts: MOBILE_BREAKPOINT = 768. -/
def MOBILE_BREAKPOINT : ℚ := 768

/-- JavaScript `v || d` on an optional number: `undefined` and `0` both fall
back to the default (as in `item.headerStyle?.height || 44`). -/
def jsOrDefault (v : Option ℚ) (d : ℚ) : ℚ :=
  match v with
  | some x => if x = 0 then d else x
  | none => d

/-- Per-frame state of a detachable content item (`DetachableState` in
GlideFrameProvider, part_009).  `content` is the opaque content reference. -/
structure DetachableState where
  content : Nat
  title : String
  headerHeight : Option ℚ
  lockAspectRatio : Bool
  isDetached : Bool
  isDocked : Bool
  dockedSide : Option DockSide
  dockedY : ℚ
  isMaximized : Bool
  position : Pos
  size : Size
  originalSize : Size
  zIndex : Nat
  slotRect : Option Rect
  preMaximizeState : Option (Pos × Size)
  aspectRatio : Option ℚ
deriving DecidableEq

/-- Options passed to `register` (title, headerStyle, lockAspectRatio, defaultSize). -/
structure RegisterOptions where
  title : String
  headerHeight : Option ℚ
  lockAspectRatio : Option Bool
  defaultSize : Option Size
deriving DecidableEq

/-- The provider's global state: the detachables map plus the process-wide
z-index counter (`let globalZIndex = 10000`). -/
structure ProviderState where
  detachables : String → Option DetachableState
  globalZIndex : Nat

/-- Store an item in the map. -/
def setItem (id : String) (v : DetachableState) (s : ProviderState) : ProviderState :=
  { s with detachables := fun j => if j = id then some v else s.detachables j }

/-- Delete an item from the map. -/
def removeItem (id : String) (s : ProviderState) : ProviderState :=
  { s with detachables := fun j => if j = id then none else s.detachables j }

/-- `register(id, content, options)`: if the id is already present the map is
returned unchanged (content is stored once, never updated); otherwise a fresh
record is created with the defaults of part_009. -/
def register (id : String) (content : Nat) (opts : RegisterOptions)
    (s : ProviderState) : ProviderState :=
  match s.detachables id with
  | some _ => s
  | none =>
    let defaultSize := opts.defaultSize.getD ⟨480, 320⟩
    let z := s.globalZIndex + 1
    setItem id
      { content := content
        title := opts.title
        headerHeight := opts.headerHeight
        lockAspectRatio := opts.lockAspectRatio.getD false
        isDetached := false
        isDocked := false
        dockedSide := none
        dockedY := 100
        isMaximized := false
        position := ⟨100, 100⟩
        size := defaultSize
        originalSize := defaultSize
        zIndex := z
        slotRect := none
        preMaximizeState := none
        aspectRatio := none }
      { s with globalZIndex := z }

/-- `unregister(id)`: keeps the record when the frame is detached or docked
(it must survive page navigation), otherwise deletes it. -/
def unregister (id : String) (s : ProviderState) : ProviderState :=
  match s.detachables id with
  | some item => if item.isDetached || item.isDocked then s else removeItem id s
  | none => removeItem id s

/-- The `< 1px` tolerance used by `updateSlot` to skip no-op rect updates. -/
def rectAlmostEqual (a b : Rect) : Bool :=
  |a.x - b.x| < 1 && |a.y - b.y| < 1 && |a.width - b.width| < 1 && |a.height - b.height| < 1

/-- `updateSlot(id, rect)`: records the slot rectangle reported by the
presentation shell (skipping essentially-identical rects). -/
def updateSlot (id : String) (rect : Option Rect) (s : ProviderState) : ProviderState :=
  match s.detachables id with
  | none => s
  | some item =>
    match item.slotRect, rect with
    | some oldRect, some newRect =>
      if rectAlmostEqual oldRect newRect then s
      else setItem id { item with slotRect := rect } s
    | _, _ => setItem id { item with slotRect := rect } s

/-- `detach(id)` for viewport `vw × vh`: requires a known slot rect; computes
the initial floating geometry (mobile rule for `vw < 768`), a fixed corner
inset position, and a fresh z-index. -/
def detach (vw vh : ℚ) (id : String) (s : ProviderState) : ProviderState :=
  match s.detachables id with
  | none => s
  | some item =>
    match item.slotRect with
    | none => s
    | some rect =>
      let isMobile := vw < MOBILE_BREAKPOINT
      let headerHeight := jsOrDefault item.headerHeight 44
      let width :=
        if isMobile then min rect.width (vw - 40)
        else min (max rect.width 400) (vw - 40)
      let height := min (rect.height + headerHeight) (vh - 100)
      let z := s.globalZIndex + 1
      setItem id
        { item with
          isDetached := true
          isDocked := false
          dockedSide := none
          position := ⟨20, if isMobile then 60 else 80⟩
          size := ⟨width, height⟩
          originalSize := ⟨rect.width, rect.height⟩
          zIndex := z
          aspectRatio := if item.lockAspectRatio then some (width / height) else none }
        { s with globalZIndex := z }

/-- `attach(id)`: returns the content to its inline slot, clearing the
floating, docked and maximized flags. -/
def attach (id : String) (s : ProviderState) : ProviderState :=
  match s.detachables id with
  | none => s
  | some item =>
    setItem id
      { item with isDetached := false, isDocked := false, dockedSide := none,
                  isMaximized := false } s

/-- `isDetached(id)` accessor (`detachables.get(id)?.isDetached ?? false`). -/
def isDetached (s : ProviderState) (id : String) : Bool :=
  match s.detachables id with
  | some item => item.isDetached
  | none => false

/-- `isDocked(id)` accessor. -/
def isDocked (s : ProviderState) (id : String) : Bool :=
  match s.detachables id with
  | some item => item.isDocked
  | none => false

/-- The stored content reference for an id, when registered. -/
def contentOf (s : ProviderState) (id : String) : Option Nat :=
  Option.map DetachableState.content (s.detachables id)

/-- The stored position for an id, when registered. -/
def posOf (s : ProviderState) (id : String) : Option Pos :=
  Option.map DetachableState.position (s.detachables id)

/-- The stored size for an id, when registered. -/
def szOf (s : ProviderState) (id : String) : Option Size :=
  Option.map DetachableState.size (s.detachables id)

/-- The stored pre-maximize snapshot for an id, when registered. -/
def preMaxOf (s : ProviderState) (id : String) : Option (Option (Pos × Size)) :=
  Option.map DetachableState.preMaximizeState (s.detachables id)

/-- The stored maximized flag for an id, when registered. -/
def isMaximizedOf (s : ProviderState) (id : String) : Option Bool :=
  Option.map DetachableState.isMaximized (s.detachables id)

/-- `maximize` (DetachableRenderer): no-op while already maximized, otherwise
captures `preMaximizeState = {position, size}` and fills the viewport. -/
def maximize (vw vh : ℚ) (id : String) (s : ProviderState) : ProviderState :=
  match s.detachables id with
  | none => s
  | some item =>
    if item.isMaximized then s
    else
      setItem id
        { item with
          preMaximizeState := some (item.position, item.size)
          position := ⟨0, 0⟩
          size := ⟨vw, vh⟩
          isMaximized := true } s

/-- `restore` (DetachableRenderer): valid only while maximized with a non-null
snapshot; writes position/size back from the snapshot and clears the
maximized flag.  NOTE: the source does not clear `preMaximizeState`. -/
def restore (id : String) (s : ProviderState) : ProviderState :=
  match s.detachables id with
  | none => s
  | some item =>
    match item.preMaximizeState with
    | none => s
    | some pms =>
      if item.isMaximized then
        setItem id
          { item with position := pms.1, size := pms.2, isMaximized := false } s
      else s

/-- `bringToFront` (DetachableRenderer): `updateItem({ zIndex: getNextZIndex() })`.
The counter is read-and-incremented eagerly; the frame's zIndex is updated
when the frame exists. -/
def bringToFront (id : String) (s : ProviderState) : ProviderState :=
  let z := s.globalZIndex + 1
  let s' : ProviderState := { s with globalZIndex := z }
  match s'.detachables id with
  | none => s'
  | some item => setItem id { item with zIndex := z } s'

/-- A sequence of `bringToFront` calls, processed in order. -/
def runBringToFront (seq : List String) (s : ProviderState) : ProviderState :=
  seq.foldl (fun st id => bringToFront id st) s

/-- A velocity vector in px per tick. -/
structure Vel where
  vx : ℚ
  vy : ℚ
deriving DecidableEq

/-- The squared total speed `vx² + vy²`.  The source compares
`Math.sqrt(vx²+vy²)` against nonnegative thresholds; we embed those
comparisons as the equivalent comparisons of `speedSq` against the squared
threshold. -/
def speedSq (v : Vel) : ℚ := v.vx * v.vx + v.vy * v.vy

/-- Outcome of one momentum animation tick (`animateMomentumRef.current`). -/
inductive TickResult where
  | dockLeft (y : ℚ)
  | dockRight (y : ℚ)
  | stopEdge (p : Pos)
  | nextTick (p : Pos) (v : Vel)
  | settle (p : Pos)
deriving DecidableEq

/-- One momentum tick for a frame of size `sz` in viewport `ww × wh`
(part_009, `animateMomentumRef`): apply the velocity, clamp to the viewport
recording left/right edge hits, dock when an edge is hit with squared speed
at least `DOCK_MIN_VELOCITY²`, stop at the edge otherwise, else apply
friction and continue while a velocity component exceeds the floor. -/
def animateMomentumStep (ww wh : ℚ) (sz : Size) (p : Pos) (v : Vel) : TickResult :=
  let newX0 := p.x + v.vx
  let newY0 := p.y + v.vy
  let newX1 := if newX0 ≤ 0 then 0 else newX0
  let newX := if ww - sz.width ≤ newX1 then ww - sz.width else newX1
  let newY := max 0 (min newY0 (wh - sz.height))
  if newX0 ≤ 0 ∧ DOCK_MIN_VELOCITY * DOCK_MIN_VELOCITY ≤ speedSq v then
    TickResult.dockLeft newY
  else if ww - sz.width ≤ newX1 ∧ DOCK_MIN_VELOCITY * DOCK_MIN_VELOCITY ≤ speedSq v then
    TickResult.dockRight newY
  else if newX0 ≤ 0 ∨ ww - sz.width ≤ newX1 then
    TickResult.stopEdge ⟨newX, newY⟩
  else
    let v' : Vel := ⟨v.vx * MOMENTUM_FRICTION, v.vy * MOMENTUM_FRICTION⟩
    if MOMENTUM_MIN_VELOCITY < |v'.vx| ∨ MOMENTUM_MIN_VELOCITY < |v'.vy| then
      TickResult.nextTick ⟨newX, newY⟩ v'
    else
      TickResult.settle ⟨newX, newY⟩

/-- Outcome of `handleDragStop`: start a momentum animation or snap to the
released position. -/
inductive DragStopResult where
  | startMomentum (p : Pos) (v : Vel)
  | snap (p : Pos)
deriving DecidableEq

/-- `handleDragStop` (part_009): start the momentum loop when the release
speed exceeds 1 (`speed > 1`, embedded as `speedSq > 1`) and the frame is not
maximized; otherwise just record the released position. -/
def handleDragStop (isMax : Bool) (finalPos : Pos) (v : Vel) : DragStopResult :=
  if 1 < speedSq v ∧ isMax = false then DragStopResult.startMomentum finalPos v
  else DragStopResult.snap finalPos

/-- The `updateItem` payload of `dockLeft(y)` in the renderer. -/
def dockLeftItem (y : ℚ) (it : DetachableState) : DetachableState :=
  { it with isDocked := true, dockedSide := some DockSide.left, dockedY := y,
            isMaximized := false }

/-- The `updateItem` payload of `dockRight(y)` in the renderer. -/
def dockRightItem (y : ℚ) (it : DetachableState) : DetachableState :=
  { it with isDocked := true, dockedSide := some DockSide.right, dockedY := y,
            isMaximized := false }

/-- The item-level effect of `attach(id)`. -/
def attachItem (it : DetachableState) : DetachableState :=
  { it with isDetached := false, isDocked := false, dockedSide := none,
            isMaximized := false }

/-- The item-level effect of `maximize` (no-op while already maximized). -/
def maximizeItem (vw vh : ℚ) (it : DetachableState) : DetachableState :=
  if it.isMaximized then it
  else
    { it with
      preMaximizeState := some (it.position, it.size)
      position := ⟨0, 0⟩
      size := ⟨vw, vh⟩
      isMaximized := true }

/-- The state of one `DetachableRenderer`: its item together with the pending
momentum animation callback, when one is scheduled
(`animationFrameRef` plus the position/velocity the callback closes over). -/
structure RendererState where
  item : DetachableState
  pending : Option (Pos × Vel)
deriving DecidableEq

/-- Run the scheduled momentum callback, if any: the tick either docks the
frame, stops (clearing the schedule), or moves the frame and reschedules
itself. -/
def applyTick (ww wh : ℚ) (r : RendererState) : RendererState :=
  match r.pending with
  | none => r
  | some pv =>
    match animateMomentumStep ww wh r.item.size pv.1 pv.2 with
    | TickResult.dockLeft y => { item := dockLeftItem y r.item, pending := none }
    | TickResult.dockRight y => { item := dockRightItem y r.item, pending := none }
    | TickResult.stopEdge p => { item := { r.item with position := p }, pending := none }
    | TickResult.nextTick p v => { item := { r.item with position := p }, pending := some (p, v) }
    | TickResult.settle p => { item := { r.item with position := p }, pending := none }

/-- `handleDragStart` cancels any in-flight momentum animation
(`cancelAnimationFrame` on `animationFrameRef`) before a new velocity trace. -/
def rendererDragStart (r : RendererState) : RendererState :=
  { r with pending := none }

/-- `attach` acting on a renderer: it rewrites the item's mode flags but does
not touch the animation-frame schedule (the source has no cancellation here). -/
def rendererAttach (r : RendererState) : RendererState :=
  { r with item := attachItem r.item }

/-- `maximize` acting on a renderer: likewise no cancellation of the
animation-frame schedule. -/
def rendererMaximize (vw vh : ℚ) (r : RendererState) : RendererState :=
  { r with item := maximizeItem vw vh r.item }

/-- State of the `useGlideFrame` hook (types.ts `GlideFrameState`, the
variant with minimize). -/
structure GlideFrameState where
  isMinimized : Bool
  isMaximized : Bool
  isVisible : Bool
  position : Pos
  size : Size
  zIndex : Nat
  previousPosition : Option Pos
  previousSize : Option Size
deriving DecidableEq

/-- The object literal written to localStorage by useGlideFrame.ts
(`toSave = { position, size, isMinimized, isMaximized }`). -/
structure SavedEntry where
  position : Pos
  size : Size
  isMinimized : Bool
  isMaximized : Bool
deriving DecidableEq

/-- The projection useGlideFrame.ts persists on every state change. -/
def toSave (st : GlideFrameState) : SavedEntry :=
  { position := st.position, size := st.size,
    isMinimized := st.isMinimized, isMaximized := st.isMaximized }

/-- The persistence effect of useGlideFrame.ts: whenever `persist` is enabled
and the hook is initialized, the entry is written — there is no condition on
the frame's mode. -/
def persistWrite (persist initialized : Bool) (st : GlideFrameState) : Option SavedEntry :=
  if persist && initialized then some (toSave st) else none

/-- The provider state with no registered frames and the counter at its
initial value 10000. -/
def emptyState : ProviderState :=
  { detachables := fun _ => none, globalZIndex := 10000 }

/-- Register options used in concrete examples. -/
def exOpts : RegisterOptions :=
  { title := "t", headerHeight := none, lockAspectRatio := none, defaultSize := none }

/-- A concrete floating (detached, not maximized) frame used in examples. -/
def exItemFloating : DetachableState :=
  { content := 1
    title := "t"
    headerHeight := none
    lockAspectRatio := false
    isDetached := true
    isDocked := false
    dockedSide := none
    dockedY := 100
    isMaximized := false
    position := ⟨20, 80⟩
    size := ⟨400, 244⟩
    originalSize := ⟨300, 200⟩
    zIndex := 10001
    slotRect := some ⟨50, 50, 300, 200⟩
    preMaximizeState := none
    aspectRatio := none }

/-- A concrete provider state holding the single floating frame "a". -/
def exState : ProviderState :=
  { detachables := fun j => if j = "a" then some exItemFloating else none
    globalZIndex := 10001 }

/-- The frame "a" in its maximized state, snapshot captured. -/
def exItemMax : DetachableState :=
  { exItemFloating with
    isMaximized := true
    position := ⟨0, 0⟩
    size := ⟨1280, 800⟩
    preMaximizeState := some (⟨20, 80⟩, ⟨400, 244⟩) }

/-- A concrete provider state holding the single maximized frame "a". -/
def exStateMax : ProviderState :=
  { detachables := fun j => if j = "a" then some exItemMax else none
    globalZIndex := 10002 }

/-- A second concrete floating frame, used for z-order examples. -/
def exItemB : DetachableState :=
  { exItemFloating with content := 2, zIndex := 10000 }

/-- A concrete provider state holding the two floating frames "a" and "b". -/
def exState2 : ProviderState :=
  { detachables := fun j =>
      if j = "a" then some exItemFloating
      else if j = "b" then some exItemB
      else none
    globalZIndex := 10001 }

/-- A concrete maximized `useGlideFrame` state used in examples. -/
def exMaxGlideState : GlideFrameState :=
  { isMinimized := false
    isMaximized := true
    isVisible := true
    position := ⟨0, 0⟩
    size := ⟨1280, 800⟩
    zIndex := 1001
    previousPosition := some ⟨100, 100⟩
    previousSize := some ⟨800, 600⟩ }

/-- A variant of `exMaxGlideState` differing only in fields the persisted
entry is claimed not to contain. -/
def exMaxGlideState2 : GlideFrameState :=
  { exMaxGlideState with
    isVisible := false
    zIndex := 5
    previousPosition := none
    previousSize := none }

/-- Looking up the id just stored by `setItem` yields the stored item. -/
theorem setItem_lookup_self (id : String) (v : DetachableState) (s : ProviderState) :
    (setItem id v s).detachables id = some v := by
  simp [setItem]

/-- `detach` on a registered frame with a known slot rect: the resulting
record, with the geometry the source computes. -/
theorem detach_lookup (s : ProviderState) (id : String) (item : DetachableState)
    (h : s.detachables id = some item) (rect : Rect) (hr : item.slotRect = some rect)
    (vw vh : ℚ) :
    ∃ item', (detach vw vh id s).detachables id = some item' ∧
      item'.isMaximized = item.isMaximized ∧
      item'.isDetached = true ∧
      item'.content = item.content ∧
      item'.position = ⟨20, if vw < MOBILE_BREAKPOINT then 60 else 80⟩ ∧
      item'.size = ⟨(if vw < MOBILE_BREAKPOINT then min rect.width (vw - 40)
                     else min (max rect.width 400) (vw - 40)),
                    min (rect.height + jsOrDefault item.headerHeight 44) (vh - 100)⟩ := by
  simp only [detach, h, hr]
  exact ⟨_, setItem_lookup_self .., rfl, rfl, rfl, rfl, rfl⟩

/-- Claim C1: a second `register` call with an id that is already registered
never overwrites the stored content reference — the content reference after
the second call is the one stored by the first call, regardless of what
content the second call passes. -/
theorem register_no_overwrite (s : ProviderState) (id : String)
    (h : s.detachables id = none) (c1 c2 : Nat) (o1 o2 : RegisterOptions) :
    contentOf (register id c2 o2 (register id c1 o1 s)) id = some c1 ∧
    (∀ (t : ProviderState) (item : DetachableState), t.detachables id = some item →
      ∀ (c : Nat) (o : RegisterOptions),
        contentOf (register id c o t) id = some item.content) := by
  constructor
  · have h1 : (register id c1 o1 s).detachables id = some
        { content := c1
          title := o1.title
          headerHeight := o1.headerHeight
          lockAspectRatio := o1.lockAspectRatio.getD false
          isDetached := false
          isDocked := false
          dockedSide := none
          dockedY := 100
          isMaximized := false
          position := ⟨100, 100⟩
          size := o1.defaultSize.getD ⟨480, 320⟩
          originalSize := o1.defaultSize.getD ⟨480, 320⟩
          zIndex := s.globalZIndex + 1
          slotRect := none
          preMaximizeState := none
          aspectRatio := none } := by
      simp only [register, h]
      exact setItem_lookup_self ..
    set t := register id c1 o1 s with ht
    simp [register, contentOf, h1]
  · intro t item ht c o
    simp [register, contentOf, ht]

/-- Witness for C1 at a concrete input. -/
theorem register_no_overwrite_witness :
    contentOf (register "x" 2 exOpts (register "x" 1 exOpts emptyState)) "x" = some 1 :=
  (register_no_overwrite emptyState "x" rfl 1 2 exOpts exOpts).1

/-- Claim C2: after register(X), (slot report), detach(X), unregister(X), the
frame record is retained: `isDetached X` is still true and the stored content
reference is unchanged; and `unregister` removes a record exactly when the
frame is neither floating nor docked. -/
theorem floating_survives_unregister (s : ProviderState) (id : String)
    (h : s.detachables id = none) (c : Nat) (o : RegisterOptions) (r : Rect) (vw vh : ℚ) :
    isDetached
      (unregister id (detach vw vh id (updateSlot id (some r) (register id c o s)))) id
      = true ∧
    contentOf
      (unregister id (detach vw vh id (updateSlot id (some r) (register id c o s)))) id
      = some c ∧
    (∀ (t : ProviderState) (item : DetachableState), t.detachables id = some item →
      ((unregister id t).detachables id = none ↔
        (item.isDetached = false ∧ item.isDocked = false))) := by
  have h1 : (register id c o s).detachables id = some
      { content := c
        title := o.title
        headerHeight := o.headerHeight
        lockAspectRatio := o.lockAspectRatio.getD false
        isDetached := false
        isDocked := false
        dockedSide := none
        dockedY := 100
        isMaximized := false
        position := ⟨100, 100⟩
        size := o.defaultSize.getD ⟨480, 320⟩
        originalSize := o.defaultSize.getD ⟨480, 320⟩
        zIndex := s.globalZIndex + 1
        slotRect := none
        preMaximizeState := none
        aspectRatio := none } := by
    simp only [register, h]
    exact setItem_lookup_self ..
  have h2 : (updateSlot id (some r) (register id c o s)).detachables id ≠ none := by
    simp only [updateSlot, h1]
    rw [setItem_lookup_self]
    simp
  cases h2' : (updateSlot id (some r) (register id c o s)).detachables id with
  | none => exact absurd h2' h2
  | some item2 =>
    have hslot : item2.slotRect = some r ∧ item2.content = c ∧
        item2.isDetached = false := by
      revert h2'
      simp only [updateSlot, h1]
      rw [setItem_lookup_self]
      intro h2'
      cases h2'
      exact ⟨rfl, rfl, rfl⟩
    obtain ⟨item3, h3, _, hdet3, hc3, _, _⟩ :=
      detach_lookup _ id item2 h2' r hslot.1 vw vh
    refine ⟨?_, ?_, ?_⟩
    · simp [unregister, h3, hdet3, isDetached]
    · simp [unregister, h3, hdet3, contentOf, hc3, hslot.2.1]
    · intro t item ht
      constructor
      · intro hnone
        by_contra hcon
        rw [not_and_or] at hcon
        have : item.isDetached = true ∨ item.isDocked = true := by
          rcases hcon with hc | hc
          · exact Or.inl (by revert hc; cases item.isDetached <;> simp)
          · exact Or.inr (by revert hc; cases item.isDocked <;> simp)
        have hkeep : unregister id t = t := by
          rcases this with hd | hd <;> simp [unregister, ht, hd]
        rw [hkeep, ht] at hnone
        exact Option.noConfusion hnone
      · intro ⟨hd1, hd2⟩
        simp [unregister, ht, hd1, hd2, removeItem]

/-- Witness for C2 at a concrete input. -/
theorem floating_survives_unregister_witness :
    isDetached
      (unregister "x"
        (detach 1280 800 "x"
          (updateSlot "x" (some ⟨50, 50, 300, 200⟩) (register "x" 7 exOpts emptyState)))) "x"
      = true :=
  (floating_survives_unregister emptyState "x" rfl 7 exOpts ⟨50, 50, 300, 200⟩ 1280 800).1

/-- Maximize-then-restore on a non-maximized registered frame restores the
original position and size. -/
theorem maximize_restore_aux (s : ProviderState) (id : String) (item : DetachableState)
    (h : s.detachables id = some item) (hm : item.isMaximized = false) (vw vh : ℚ) :
    posOf (restore id (maximize vw vh id s)) id = some item.position ∧
    szOf (restore id (maximize vw vh id s)) id = some item.size := by
  have h1 : (maximize vw vh id s).detachables id = some
      { item with
        preMaximizeState := some (item.position, item.size)
        position := ⟨0, 0⟩
        size := ⟨vw, vh⟩
        isMaximized := true } := by
    simp only [maximize, h, hm, Bool.false_eq_true, if_false]
    exact setItem_lookup_self ..
  constructor <;>
    simp [restore, h1, posOf, szOf, setItem]

/-- Claim C5: for a frame that is not maximized, maximize(X) then restore(X)
yields position and size equal bit-for-bit to the values immediately before
maximize(X); in particular detach(X); maximize(X); restore(X) returns to the
exact post-detach geometry. -/
theorem maximize_restore_roundtrip (s : ProviderState) (id : String)
    (item : DetachableState) (h : s.detachables id = some item)
    (hm : item.isMaximized = false) (vw vh : ℚ) :
    (posOf (restore id (maximize vw vh id s)) id = some item.position ∧
     szOf (restore id (maximize vw vh id s)) id = some item.size) ∧
    (∀ rect : Rect, item.slotRect = some rect →
      posOf (restore id (maximize vw vh id (detach vw vh id s))) id
          = posOf (detach vw vh id s) id ∧
      szOf (restore id (maximize vw vh id (detach vw vh id s))) id
          = szOf (detach vw vh id s) id) := by
  refine ⟨maximize_restore_aux s id item h hm vw vh, ?_⟩
  intro rect hr
  obtain ⟨item', h', hm', _, _, _, _⟩ := detach_lookup s id item h rect hr vw vh
  obtain ⟨hp, hs⟩ := maximize_restore_aux _ id item' h' (hm'.trans hm) vw vh
  constructor
  · rw [hp]
    simp [posOf, h']
  · rw [hs]
    simp [szOf, h']

/-- Witness for C5 at a concrete input. -/
theorem maximize_restore_roundtrip_witness :
    posOf (restore "a" (maximize 1280 800 "a" exState)) "a"
      = some exItemFloating.position :=
  ((maximize_restore_roundtrip exState "a" exItemFloating rfl rfl 1280 800).1).1

/-- Claim C7, counterexample: after maximize then restore, the frame is no
longer maximized but its pre-maximize snapshot is still non-null — `restore`
does not clear `preMaximizeState`, so the invariant "non-null only while
Maximized" fails on the code. -/
theorem restore_snapshot_cx :
    isMaximizedOf (restore "a" (maximize 1280 800 "a" exState)) "a" = some false ∧
    preMaxOf (restore "a" (maximize 1280 800 "a" exState)) "a"
      = some (some (⟨20, 80⟩, ⟨400, 244⟩)) := by
  decide

/-- Claim C7 (amended): maximize captures the snapshot on entry; restore —
effective only from Maximized with a non-null snapshot — writes position and
size back from it and returns the frame to non-maximized, but leaves the
snapshot in place rather than clearing it; restore is a no-op when not
maximized or when the snapshot is null. -/
theorem restore_snapshot_behavior (s : ProviderState) (id : String)
    (item : DetachableState) (h : s.detachables id = some item) :
    (∀ (p : Pos) (sz : Size), item.isMaximized = true →
      item.preMaximizeState = some (p, sz) →
      (restore id s).detachables id =
        some { item with position := p, size := sz, isMaximized := false }) ∧
    (item.isMaximized = false → ∀ vw vh : ℚ,
      (maximize vw vh id s).detachables id =
        some { item with
               preMaximizeState := some (item.position, item.size)
               position := ⟨0, 0⟩
               size := ⟨vw, vh⟩
               isMaximized := true }) ∧
    (item.isMaximized = false → restore id s = s) ∧
    (item.preMaximizeState = none → restore id s = s) := by
  refine ⟨?_, ?_, ?_, ?_⟩
  · intro p sz hmax hpms
    simp only [restore, h, hpms, hmax, if_true]
    exact setItem_lookup_self ..
  · intro hmax vw vh
    simp only [maximize, h, hmax, Bool.false_eq_true, if_false]
    exact setItem_lookup_self ..
  · intro hmax
    cases hpms : item.preMaximizeState with
    | none => simp [restore, h, hpms]
    | some pms => simp [restore, h, hpms, hmax]
  · intro hpms
    simp [restore, h, hpms]

/-- Witness for the amended C7 at a concrete input. -/
theorem restore_snapshot_behavior_witness :
    (restore "a" exStateMax).detachables "a" =
      some { exItemMax with
             position := ⟨20, 80⟩, size := ⟨400, 244⟩, isMaximized := false } :=
  (restore_snapshot_behavior exStateMax "a" exItemMax rfl).1 ⟨20, 80⟩ ⟨400, 244⟩ rfl rfl

/-- Claim C8: detach computes the initial floating geometry from the reported
slot rectangle — on desktop width `min (max rect.width 400) (vw - 40)`,
height `rect.height + headerHeight` capped at `vh - 100`, position at the
fixed inset (20, 80); concretely rect 300×200, headerHeight 44, viewport
1280×800 yields size 400×244 at (20, 80); below 768px the 400px lower clamp
is dropped and the position inset is (20, 60). -/
theorem detach_geometry (s : ProviderState) (id : String) (item : DetachableState)
    (h : s.detachables id = some item) (rect : Rect) (hr : item.slotRect = some rect)
    (vw vh : ℚ) :
    (MOBILE_BREAKPOINT ≤ vw →
      szOf (detach vw vh id s) id =
        some ⟨min (max rect.width 400) (vw - 40),
              min (rect.height + jsOrDefault item.headerHeight 44) (vh - 100)⟩ ∧
      posOf (detach vw vh id s) id = some ⟨20, 80⟩) ∧
    (vw < MOBILE_BREAKPOINT →
      szOf (detach vw vh id s) id =
        some ⟨min rect.width (vw - 40),
              min (rect.height + jsOrDefault item.headerHeight 44) (vh - 100)⟩ ∧
      posOf (detach vw vh id s) id = some ⟨20, 60⟩) ∧
    (rect = ⟨50, 50, 300, 200⟩ → item.headerHeight = none → vw = 1280 → vh = 800 →
      szOf (detach vw vh id s) id = some ⟨400, 244⟩ ∧
      posOf (detach vw vh id s) id = some ⟨20, 80⟩) := by
  obtain ⟨item', h', _, _, _, hpos, hsz⟩ := detach_lookup s id item h rect hr vw vh
  have hszOf : szOf (detach vw vh id s) id = some item'.size := by simp [szOf, h']
  have hposOf : posOf (detach vw vh id s) id = some item'.position := by simp [posOf, h']
  refine ⟨?_, ?_, ?_⟩
  · intro hdesk
    have hnm : ¬ vw < MOBILE_BREAKPOINT := not_lt.mpr hdesk
    rw [hszOf, hposOf, hpos, hsz]
    simp [hnm]
  · intro hmob
    rw [hszOf, hposOf, hpos, hsz]
    simp [hmob]
  · intro hrect hhh hvw hvh
    subst hrect hvw hvh
    have hnm : ¬ (1280 : ℚ) < MOBILE_BREAKPOINT := by norm_num [MOBILE_BREAKPOINT]
    rw [hszOf, hposOf, hpos, hsz]
    simp only [hnm, if_false, hhh]
    norm_num [jsOrDefault]

/-- Witness for C8: the concrete scenario from the spec. -/
theorem detach_geometry_witness :
    szOf (detach 1280 800 "a" exState) "a" = some ⟨400, 244⟩ ∧
    posOf (detach 1280 800 "a" exState) "a" = some ⟨20, 80⟩ :=
  (detach_geometry exState "a" exItemFloating rfl ⟨50, 50, 300, 200⟩ rfl 1280 800).2.2
    rfl rfl rfl rfl

/-- Claim C9, counterexample: register(x, 1), unregister(x), register(x, 2)
while the frame never enters floating or docked state leaves content
reference 2 — the reference from the second register, not the first —
because unregister removed the record. -/
theorem reregister_cx :
    isDetached (register "x" 1 exOpts emptyState) "x" = false ∧
    isDocked (register "x" 1 exOpts emptyState) "x" = false ∧
    contentOf (register "x" 2 exOpts
      (unregister "x" (register "x" 1 exOpts emptyState))) "x" = some 2 ∧
    contentOf (register "x" 2 exOpts
      (unregister "x" (register "x" 1 exOpts emptyState))) "x" ≠ some 1 := by
  decide

/-- Claim C9 (amended): in a register → unregister → register sequence with
the same id during which the frame never enters Floating or Docked, the
unregister removes the record, so the second register is a fresh
registration and the stored content reference afterwards is the one passed
by the second call. -/
theorem reregister_stores_second (s : ProviderState) (id : String)
    (h : s.detachables id = none) (c1 c2 : Nat) (o1 o2 : RegisterOptions) :
    (unregister id (register id c1 o1 s)).detachables id = none ∧
    contentOf (register id c2 o2 (unregister id (register id c1 o1 s))) id
      = some c2 := by
  have h1 : (register id c1 o1 s).detachables id = some
      { content := c1
        title := o1.title
        headerHeight := o1.headerHeight
        lockAspectRatio := o1.lockAspectRatio.getD false
        isDetached := false
        isDocked := false
        dockedSide := none
        dockedY := 100
        isMaximized := false
        position := ⟨100, 100⟩
        size := o1.defaultSize.getD ⟨480, 320⟩
        originalSize := o1.defaultSize.getD ⟨480, 320⟩
        zIndex := s.globalZIndex + 1
        slotRect := none
        preMaximizeState := none
        aspectRatio := none } := by
    simp only [register, h]
    exact setItem_lookup_self ..
  have h2 : (unregister id (register id c1 o1 s)).detachables id = none := by
    simp [unregister, h1, removeItem]
  refine ⟨h2, ?_⟩
  set u := unregister id (register id c1 o1 s) with hu
  have h3 : (register id c2 o2 u).detachables id
      = some
      { content := c2
        title := o2.title
        headerHeight := o2.headerHeight
        lockAspectRatio := o2.lockAspectRatio.getD false
        isDetached := false
        isDocked := false
        dockedSide := none
        dockedY := 100
        isMaximized := false
        position := ⟨100, 100⟩
        size := o2.defaultSize.getD ⟨480, 320⟩
        originalSize := o2.defaultSize.getD ⟨480, 320⟩
        zIndex := u.globalZIndex + 1
        slotRect := none
        preMaximizeState := none
        aspectRatio := none } := by
    simp only [register, h2]
    exact setItem_lookup_self ..
  simp [contentOf, h3]

/-- Witness for the amended C9 at a concrete input. -/
theorem reregister_stores_second_witness :
    (unregister "x" (register "x" 1 exOpts emptyState)).detachables "x" = none ∧
    contentOf (register "x" 2 exOpts
      (unregister "x" (register "x" 1 exOpts emptyState))) "x" = some 2 :=
  reregister_stores_second emptyState "x" rfl 1 2 exOpts exOpts

/-- Claim C6, counterexample: the useGlideFrame persistence effect writes an
entry while the state is Maximized, and the written entry carries the
`isMinimized`/`isMaximized` mode flags — so the persisted layout entry is
not `{position, size}` only and writes are not restricted to Floating. -/
theorem persist_entry_cx :
    exMaxGlideState.isMaximized = true ∧
    persistWrite true true exMaxGlideState = some (toSave exMaxGlideState) ∧
    (toSave exMaxGlideState).isMaximized = true := by
  decide

/-- Claim C6 (amended): whenever persistence is enabled and the hook is
initialized, a write happens on every state change regardless of mode —
including while minimized or maximized — and the persisted entry consists of
exactly position, size, isMinimized and isMaximized (never z-index, snapshot
or visibility fields). -/
theorem persist_entry_spec :
    (∀ st : GlideFrameState, persistWrite true true st = some (toSave st)) ∧
    (∀ st : GlideFrameState,
      (toSave st).position = st.position ∧ (toSave st).size = st.size ∧
      (toSave st).isMinimized = st.isMinimized ∧
      (toSave st).isMaximized = st.isMaximized) ∧
    (∀ st st' : GlideFrameState, st.position = st'.position → st.size = st'.size →
      st.isMinimized = st'.isMinimized → st.isMaximized = st'.isMaximized →
      toSave st = toSave st') := by
  refine ⟨fun st => rfl, fun st => ⟨rfl, rfl, rfl, rfl⟩, ?_⟩
  intro st st' h1 h2 h3 h4
  simp [toSave, h1, h2, h3, h4]

/-- Witness for the amended C6 at concrete inputs: two states differing in
z-index, visibility and snapshot fields persist the same entry. -/
theorem persist_entry_spec_witness :
    toSave exMaxGlideState = toSave exMaxGlideState2 :=
  persist_entry_spec.2.2 exMaxGlideState exMaxGlideState2 rfl rfl rfl rfl

/-- Claim C10, counterexample: `attach` does not cancel the pending momentum
animation frame, and the orphaned tick then mutates the frame's position
after it has left the floating state. -/
theorem momentum_orphan_cx :
    (rendererAttach ⟨exItemFloating, some (⟨1, 100⟩, ⟨-1, 0⟩)⟩).item.isDetached
      = false ∧
    (rendererAttach ⟨exItemFloating, some (⟨1, 100⟩, ⟨-1, 0⟩)⟩).pending
      = some (⟨1, 100⟩, ⟨-1, 0⟩) ∧
    (applyTick 1280 800
        (rendererAttach ⟨exItemFloating, some (⟨1, 100⟩, ⟨-1, 0⟩)⟩)).item.position
      = ⟨0, 100⟩ ∧
    (rendererAttach ⟨exItemFloating, some (⟨1, 100⟩, ⟨-1, 0⟩)⟩).item.position
      ≠ ⟨0, 100⟩ := by
  have hstep : animateMomentumStep 1280 800 ⟨400, 244⟩ ⟨1, 100⟩ ⟨-1, 0⟩ =
      TickResult.stopEdge ⟨0, 100⟩ := by
    norm_num [animateMomentumStep, speedSq, DOCK_MIN_VELOCITY]
  refine ⟨rfl, rfl, ?_, by decide⟩
  simp only [rendererAttach, applyTick, attachItem, exItemFloating, hstep]

/-- Claim C10 (amended): a new drag-start cancels an in-flight momentum
animation before starting a new velocity trace (so at most one loop is live
per frame), and a momentum tick that ends in a dock terminates the loop
itself; but attach and maximize do not cancel a pending momentum tick, which
may still mutate the frame after it exits the floating state. -/
theorem momentum_cancellation (r : RendererState) (ww wh vw vh : ℚ)
    (p : Pos) (v : Vel) :
    (rendererDragStart r).pending = none ∧
    (rendererAttach r).pending = r.pending ∧
    (rendererMaximize vw vh r).pending = r.pending ∧
    (r.pending = some (p, v) → ∀ y : ℚ,
      animateMomentumStep ww wh r.item.size p v = TickResult.dockLeft y →
      (applyTick ww wh r).item.isDocked = true ∧ (applyTick ww wh r).pending = none) := by
  refine ⟨rfl, rfl, rfl, ?_⟩
  intro hp y hstep
  simp [applyTick, hp, hstep, dockLeftItem]

/-- Witness for the amended C10 at a concrete input. -/
theorem momentum_cancellation_witness :
    (applyTick 1280 800 ⟨exItemFloating, some (⟨10, 100⟩, ⟨-20, 0⟩)⟩).item.isDocked = true ∧
    (applyTick 1280 800 ⟨exItemFloating, some (⟨10, 100⟩, ⟨-20, 0⟩)⟩).pending = none :=
  (momentum_cancellation ⟨exItemFloating, some (⟨10, 100⟩, ⟨-20, 0⟩)⟩ 1280 800 1280 800
      ⟨10, 100⟩ ⟨-20, 0⟩).2.2.2 rfl 100
    (by norm_num [animateMomentumStep, speedSq, DOCK_MIN_VELOCITY, exItemFloating])

/-- Claim C4: during a momentum tick, clamping at the left (resp. right)
viewport bound with squared speed at least `DOCK_MIN_VELOCITY² = 4` docks the
frame left (resp. right) at the clamped y and terminates the animation;
hitting a horizontal bound below that speed stops the frame at the edge
without docking; and a drag release at x = 0 with speed one unit below the
threshold (squared speed `(DOCK_MIN_VELOCITY - 1)² = 1`) snaps to the release
position without starting the momentum loop at all. -/
theorem dock_boundary (ww wh : ℚ) (sz : Size) (p : Pos) (v : Vel) :
    DOCK_MIN_VELOCITY = 2 ∧
    (p.x + v.vx ≤ 0 → DOCK_MIN_VELOCITY * DOCK_MIN_VELOCITY ≤ speedSq v →
      animateMomentumStep ww wh sz p v =
        TickResult.dockLeft (max 0 (min (p.y + v.vy) (wh - sz.height)))) ∧
    (¬ (p.x + v.vx ≤ 0) → ww - sz.width ≤ p.x + v.vx →
      DOCK_MIN_VELOCITY * DOCK_MIN_VELOCITY ≤ speedSq v →
      animateMomentumStep ww wh sz p v =
        TickResult.dockRight (max 0 (min (p.y + v.vy) (wh - sz.height)))) ∧
    (p.x + v.vx ≤ 0 → speedSq v < DOCK_MIN_VELOCITY * DOCK_MIN_VELOCITY →
      0 < ww - sz.width →
      animateMomentumStep ww wh sz p v =
        TickResult.stopEdge ⟨0, max 0 (min (p.y + v.vy) (wh - sz.height))⟩) ∧
    (¬ (p.x + v.vx ≤ 0) → ww - sz.width ≤ p.x + v.vx →
      speedSq v < DOCK_MIN_VELOCITY * DOCK_MIN_VELOCITY →
      animateMomentumStep ww wh sz p v =
        TickResult.stopEdge ⟨ww - sz.width, max 0 (min (p.y + v.vy) (wh - sz.height))⟩) ∧
    (∀ y : ℚ, speedSq v = (DOCK_MIN_VELOCITY - 1) * (DOCK_MIN_VELOCITY - 1) →
      handleDragStop false ⟨0, y⟩ v = DragStopResult.snap ⟨0, y⟩) := by
  refine ⟨rfl, ?_, ?_, ?_, ?_, ?_⟩
  · intro h1 h2
    simp only [animateMomentumStep]
    rw [if_pos ⟨h1, h2⟩]
  · intro h1 hr h2
    have hnc1 : ¬ (p.x + v.vx ≤ 0 ∧
        DOCK_MIN_VELOCITY * DOCK_MIN_VELOCITY ≤ speedSq v) := fun hc => h1 hc.1
    have hc2 : ww - sz.width ≤ p.x + v.vx ∧
        DOCK_MIN_VELOCITY * DOCK_MIN_VELOCITY ≤ speedSq v := ⟨hr, h2⟩
    simp only [animateMomentumStep, if_neg h1, if_neg hnc1, if_pos hc2]
  · intro h1 h2 hww
    have hnc1 : ¬ (p.x + v.vx ≤ 0 ∧
        DOCK_MIN_VELOCITY * DOCK_MIN_VELOCITY ≤ speedSq v) :=
      fun hc => absurd (lt_of_le_of_lt hc.2 h2) (lt_irrefl _)
    have hnr : ¬ (ww - sz.width ≤ (0 : ℚ)) := not_le.mpr hww
    have hnc2 : ¬ (ww - sz.width ≤ (0 : ℚ) ∧
        DOCK_MIN_VELOCITY * DOCK_MIN_VELOCITY ≤ speedSq v) := fun hc => hnr hc.1
    have hor : (p.x + v.vx ≤ 0) ∨ (ww - sz.width ≤ (0 : ℚ)) := Or.inl h1
    simp only [animateMomentumStep, if_pos h1, if_neg hnc1, if_neg hnc2, if_neg hnr,
      if_pos hor]
  · intro h1 hr h2
    have hnc1 : ¬ (p.x + v.vx ≤ 0 ∧
        DOCK_MIN_VELOCITY * DOCK_MIN_VELOCITY ≤ speedSq v) := fun hc => h1 hc.1
    have hnc2 : ¬ (ww - sz.width ≤ p.x + v.vx ∧
        DOCK_MIN_VELOCITY * DOCK_MIN_VELOCITY ≤ speedSq v) :=
      fun hc => absurd (lt_of_le_of_lt hc.2 h2) (lt_irrefl _)
    have hor : (p.x + v.vx ≤ 0) ∨ (ww - sz.width ≤ p.x + v.vx) := Or.inr hr
    simp only [animateMomentumStep, if_neg h1, if_neg hnc1, if_neg hnc2, if_pos hr,
      if_pos hor]
  · intro y hy
    have h1 : speedSq v = 1 := by rw [hy]; norm_num [DOCK_MIN_VELOCITY]
    simp [handleDragStop, h1]

/-- Witness for C4: a throw that clamps at the left edge with squared speed
400 docks left, and a release with unit speed snaps without momentum. -/
theorem dock_boundary_witness :
    animateMomentumStep 1280 800 ⟨480, 320⟩ ⟨10, 100⟩ ⟨-20, 0⟩ =
      TickResult.dockLeft
        (max 0 (min ((⟨10, 100⟩ : Pos).y + (⟨-20, 0⟩ : Vel).vy)
          (800 - (⟨480, 320⟩ : Size).height))) ∧
    handleDragStop false ⟨0, 5⟩ ⟨1, 0⟩ = DragStopResult.snap ⟨0, 5⟩ :=
  ⟨(dock_boundary 1280 800 ⟨480, 320⟩ ⟨10, 100⟩ ⟨-20, 0⟩).2.1
      (by norm_num) (by norm_num [speedSq, DOCK_MIN_VELOCITY]),
   (dock_boundary 1280 800 ⟨480, 320⟩ ⟨0, 5⟩ ⟨1, 0⟩).2.2.2.2.2 5
      (by norm_num [speedSq, DOCK_MIN_VELOCITY])⟩

/-- Each `bringToFront` call increments the global counter by one. -/
theorem bringToFront_globalZIndex (id : String) (s : ProviderState) :
    (bringToFront id s).globalZIndex = s.globalZIndex + 1 := by
  cases h : s.detachables id <;> simp [bringToFront, setItem, h]

/-- `bringToFront id` leaves other ids' records unchanged. -/
theorem bringToFront_lookup_ne (id j : String) (s : ProviderState) (hj : j ≠ id) :
    (bringToFront id s).detachables j = s.detachables j := by
  cases h : s.detachables id <;> simp [bringToFront, setItem, h, hj]

/-- `bringToFront id` sets the frame's z-index to the fresh counter value. -/
theorem bringToFront_lookup_self (id : String) (s : ProviderState) :
    (bringToFront id s).detachables id =
      Option.map (fun item => { item with zIndex := s.globalZIndex + 1 })
        (s.detachables id) := by
  cases h : s.detachables id <;> simp [bringToFront, setItem, h]

/-- `bringToFront` never registers or unregisters frames. -/
theorem bringToFront_isSome (id j : String) (s : ProviderState) :
    ((bringToFront id s).detachables j).isSome = (s.detachables j).isSome := by
  by_cases hj : j = id
  · subst hj
    rw [bringToFront_lookup_self]
    cases s.detachables j <;> rfl
  · rw [bringToFront_lookup_ne id j s hj]

/-- Unfolding one call of a `bringToFront` sequence. -/
theorem runBringToFront_cons (a : String) (seq : List String) (s : ProviderState) :
    runBringToFront (a :: seq) s = runBringToFront seq (bringToFront a s) := rfl

/-- The counter grows by exactly the number of calls. -/
theorem runBringToFront_globalZIndex : ∀ (seq : List String) (s : ProviderState),
    (runBringToFront seq s).globalZIndex = s.globalZIndex + seq.length := by
  intro seq
  induction seq with
  | nil => intro s; rfl
  | cons a rest ih =>
    intro s
    rw [runBringToFront_cons, ih, bringToFront_globalZIndex, List.length_cons]
    omega

/-- A sequence of calls preserves which ids are registered. -/
theorem runBringToFront_isSome : ∀ (seq : List String) (j : String) (s : ProviderState),
    ((runBringToFront seq s).detachables j).isSome = (s.detachables j).isSome := by
  intro seq
  induction seq with
  | nil => intro j s; rfl
  | cons a rest ih =>
    intro j s
    rw [runBringToFront_cons, ih, bringToFront_isSome]

/-- Frames not named in the sequence are untouched. -/
theorem runBringToFront_lookup_not_mem : ∀ (seq : List String) (j : String)
    (s : ProviderState), j ∉ seq →
    (runBringToFront seq s).detachables j = s.detachables j := by
  intro seq
  induction seq with
  | nil => intro j s _; rfl
  | cons a rest ih =>
    intro j s hj
    rw [List.mem_cons, not_or] at hj
    rw [runBringToFront_cons, ih j _ hj.2, bringToFront_lookup_ne a j s hj.1]

/-- One step preserves the invariant that every stored z-index is bounded by
the global counter. -/
theorem bringToFront_zle (j : String) (s : ProviderState)
    (hinv : ∀ id item, s.detachables id = some item → item.zIndex ≤ s.globalZIndex) :
    ∀ id item, (bringToFront j s).detachables id = some item →
      item.zIndex ≤ (bringToFront j s).globalZIndex := by
  intro id item h
  rw [bringToFront_globalZIndex]
  by_cases hij : id = j
  · subst hij
    rw [bringToFront_lookup_self] at h
    cases hs : s.detachables id with
    | none => rw [hs] at h; exact absurd h (by simp)
    | some it0 =>
      rw [hs] at h
      simp only [Option.map_some', Option.some_inj] at h
      cases h
      simp
  · rw [bringToFront_lookup_ne j id s hij] at h
    exact le_trans (hinv id item h) (Nat.le_succ _)

/-- The bounded-z-index invariant is preserved by any call sequence. -/
theorem runBringToFront_zle : ∀ (seq : List String) (s : ProviderState),
    (∀ id item, s.detachables id = some item → item.zIndex ≤ s.globalZIndex) →
    ∀ id item, (runBringToFront seq s).detachables id = some item →
      item.zIndex ≤ (runBringToFront seq s).globalZIndex := by
  intro seq
  induction seq with
  | nil => intro s hinv; exact hinv
  | cons a rest ih =>
    intro s hinv id item h
    rw [runBringToFront_cons] at h ⊢
    exact ih _ (bringToFront_zle a s hinv) id item h

/-- A registered frame named in the sequence ends with a z-index strictly
above the counter value the sequence started from. -/
theorem runBringToFront_mem_gt : ∀ (seq : List String) (s : ProviderState)
    (id : String), id ∈ seq → (s.detachables id).isSome = true →
    ∃ item, (runBringToFront seq s).detachables id = some item ∧
      s.globalZIndex < item.zIndex := by
  intro seq
  induction seq with
  | nil => intro s id hm; exact absurd hm (List.not_mem_nil id)
  | cons a rest ih =>
    intro s id hm hs
    by_cases hmr : id ∈ rest
    · obtain ⟨item, hit, hgt⟩ := ih (bringToFront a s) id hmr
        (by rw [bringToFront_isSome]; exact hs)
      refine ⟨item, by rw [runBringToFront_cons]; exact hit, ?_⟩
      have hz := bringToFront_globalZIndex a s
      omega
    · have hia : id = a := by
        rcases List.mem_cons.mp hm with h | h
        · exact h
        · exact absurd h hmr
      subst hia
      rw [runBringToFront_cons, runBringToFront_lookup_not_mem rest id _ hmr,
        bringToFront_lookup_self]
      cases hs0 : s.detachables id with
      | none => rw [hs0] at hs; exact absurd hs (by simp)
      | some it0 =>
        exact ⟨_, rfl, by simp⟩

/-- Distinct frames that are each named in the call sequence end with
distinct z-index values. -/
theorem runBringToFront_distinct : ∀ (seq : List String) (s : ProviderState),
    (∀ id, id ∈ seq → (s.detachables id).isSome = true) →
    ∀ a, a ∈ seq → ∀ b, b ∈ seq → a ≠ b →
      Option.map DetachableState.zIndex ((runBringToFront seq s).detachables a) ≠
      Option.map DetachableState.zIndex ((runBringToFront seq s).detachables b) := by
  intro seq
  induction seq with
  | nil => intro s _ a ha; exact absurd ha (List.not_mem_nil a)
  | cons c rest ih =>
    intro s hreg a ha b hb hab
    have hreg' : ∀ id, id ∈ rest → ((bringToFront c s).detachables id).isSome = true :=
      fun id hid => by
        rw [bringToFront_isSome]
        exact hreg id (List.mem_cons_of_mem c hid)
    simp only [runBringToFront_cons]
    by_cases har : a ∈ rest <;> by_cases hbr : b ∈ rest
    · exact ih (bringToFront c s) hreg' a har b hbr hab
    · have hbc : b = c := by
        rcases List.mem_cons.mp hb with h | h
        · exact h
        · exact absurd h hbr
      subst hbc
      obtain ⟨itema, hita, hgta⟩ := runBringToFront_mem_gt rest (bringToFront b s) a har
        (by rw [bringToFront_isSome]; exact hreg a ha)
      rw [hita, runBringToFront_lookup_not_mem rest b _ hbr, bringToFront_lookup_self]
      cases hsb : s.detachables b with
      | none =>
        have := hreg b (List.mem_cons_self b rest)
        rw [hsb] at this
        exact absurd this (by simp)
      | some itb =>
        have hz := bringToFront_globalZIndex b s
        intro hcontra
        simp at hcontra
        omega
    · have hac : a = c := by
        rcases List.mem_cons.mp ha with h | h
        · exact h
        · exact absurd h har
      subst hac
      obtain ⟨itemb, hitb, hgtb⟩ := runBringToFront_mem_gt rest (bringToFront a s) b hbr
        (by rw [bringToFront_isSome]; exact hreg b hb)
      rw [hitb, runBringToFront_lookup_not_mem rest a _ har, bringToFront_lookup_self]
      cases hsa : s.detachables a with
      | none =>
        have := hreg a (List.mem_cons_self a rest)
        rw [hsa] at this
        exact absurd this (by simp)
      | some ita =>
        have hz := bringToFront_globalZIndex a s
        intro hcontra
        simp at hcontra
        omega
    · have hac : a = c := by
        rcases List.mem_cons.mp ha with h | h
        · exact h
        · exact absurd h har
      have hbc : b = c := by
        rcases List.mem_cons.mp hb with h | h
        · exact h
        · exact absurd h hbr
      exact absurd (hac.trans hbc.symm) hab

/-- Claim C3: z-index assignment uses the single process-wide strictly
increasing counter shared across all frames: for any nonempty sequence of
`bringToFront` calls over registered frames (counter never reset or
decremented — each call adds exactly one), the resulting z-index values of
distinct frames named in the sequence are pairwise distinct, and the frame
of the last call holds the strictly maximum z-index. -/
theorem zorder_totality (s : ProviderState) (pre : List String) (lastId : String)
    (hreg : ∀ id, id ∈ pre ++ [lastId] → (s.detachables id).isSome = true)
    (hinv : ∀ id item, s.detachables id = some item → item.zIndex ≤ s.globalZIndex) :
    (runBringToFront (pre ++ [lastId]) s).globalZIndex
        = s.globalZIndex + (pre ++ [lastId]).length ∧
    (∀ a, a ∈ pre ++ [lastId] → ∀ b, b ∈ pre ++ [lastId] → a ≠ b →
      Option.map DetachableState.zIndex
          ((runBringToFront (pre ++ [lastId]) s).detachables a) ≠
      Option.map DetachableState.zIndex
          ((runBringToFront (pre ++ [lastId]) s).detachables b)) ∧
    (∀ b ib ia, b ≠ lastId →
      (runBringToFront (pre ++ [lastId]) s).detachables b = some ib →
      (runBringToFront (pre ++ [lastId]) s).detachables lastId = some ia →
      ib.zIndex < ia.zIndex) := by
  refine ⟨runBringToFront_globalZIndex _ s, runBringToFront_distinct _ s hreg, ?_⟩
  intro b ib ia hbl hib hia
  have happ : runBringToFront (pre ++ [lastId]) s
      = bringToFront lastId (runBringToFront pre s) := by
    simp [runBringToFront, List.foldl_append]
  rw [happ] at hib hia
  rw [bringToFront_lookup_ne lastId b _ hbl] at hib
  rw [bringToFront_lookup_self] at hia
  have hzb := runBringToFront_zle pre s hinv b ib hib
  cases hml : (runBringToFront pre s).detachables lastId with
  | none => rw [hml] at hia; exact absurd hia (by simp)
  | some itl =>
    rw [hml] at hia
    simp only [Option.map_some', Option.some_inj] at hia
    cases hia
    exact Nat.lt_succ_of_le hzb

/-- Witness for C3 at a concrete input: bringToFront("a") then
bringToFront("b") leaves the two frames with distinct z-indexes. -/
theorem zorder_totality_witness :
    Option.map DetachableState.zIndex
      ((runBringToFront (["a"] ++ ["b"]) exState2).detachables "a") ≠
    Option.map DetachableState.zIndex
      ((runBringToFront (["a"] ++ ["b"]) exState2).detachables "b") :=
  (zorder_totality exState2 ["a"] "b"
      (by decide)
      (by
        intro id item h
        simp only [exState2] at h
        split_ifs at h <;>
          first
            | exact Option.noConfusion h
            | (injection h with h'
               subst h'
               decide))).2.1
    "a" (by decide) "b" (by decide) (by decide)
